import Mathlib

/-!
Shallow embedding of the conversation state machine and journey-routing
engine of the repu-ai-pilot repository
(backend/src/core/conversation/: models.py, transitions.py, manager.py,
journeys/menu/state.py, journeys/product_search/{journey,part_selection}.py,
utils/parser.py, intents/parser.py), together with theorems settling the
frozen claims about it.

Conventions of the embedding:
* Python dictionaries and object `__dict__`s are insertion-ordered
  association lists `List (String × PyVal)`.
* Fallible Python code (exceptions such as `TypeError`, `KeyError`,
  `ValueError`) is embedded as `Except String _`.
* Collaborator I/O (the TecDoc catalog, the inventory service, the awaited
  journey state handlers) is passed in as an explicit outcome parameter,
  since those calls are external to the core per the specification.
* `float` confidence values of the intent parsers are embedded as exact
  rationals (all values occurring in the source are 0.0, 0.1, 0.6, 0.9, 1.0,
  each exactly representable).
-/

/-- The customer intents of `models.py` (class CustomerIntent, values 1..6). -/
inductive CustomerIntent where
  | PRODUCT_SEARCH
  | TECHNICAL_INFO
  | ORDER_STATUS
  | RETURNS_WARRANTY
  | GENERAL_INFO
  | OTHER
deriving DecidableEq, Repr

/-- Universe of conversation-state names appearing anywhere in the
conversation package.  `models.py` declares only thirteen of these as enum
members (see `modelsDeclaredStates`); `VEHICLE_IDENTIFICATION` is referenced
by `transitions.py` and the product-search journey although `models.py` does
not declare it, and `OTHER` exists only in the duplicate enum of
`fsm/state_manager.py`. -/
inductive ConversationState where
  | INTENT_MENU
  | PRODUCT_SEARCH_INIT
  | VEHICLE_INFO_COLLECTION
  | VEHICLE_IDENTIFICATION
  | PART_TYPE_SELECTION
  | PRODUCT_PRESENTATION
  | PRICE_NEGOTIATION
  | ORDER_CONFIRMATION
  | ORDER_STATUS
  | TECHNICAL_INFO
  | RETURNS_WARRANTY
  | GENERAL_INFO
  | OTHER
  | ERROR
  | END
deriving DecidableEq, Repr

open ConversationState

/-- The `value` string of each state name, as in `models.py`.  For the two
names that `models.py` does not declare we use the value the rest of the code
treats them as having (`transitions.py` comments, `fsm/state_manager.py`). -/
def stateValue : ConversationState → String
  | INTENT_MENU => "intent_menu"
  | PRODUCT_SEARCH_INIT => "product_search_init"
  | VEHICLE_INFO_COLLECTION => "vehicle_info_collection"
  | VEHICLE_IDENTIFICATION => "vehicle_identification"
  | PART_TYPE_SELECTION => "part_type_selection"
  | PRODUCT_PRESENTATION => "product_presentation"
  | PRICE_NEGOTIATION => "price_negotiation"
  | ORDER_CONFIRMATION => "order_confirmation"
  | ORDER_STATUS => "order_status"
  | TECHNICAL_INFO => "technical_info"
  | RETURNS_WARRANTY => "returns_warranty"
  | GENERAL_INFO => "general_info"
  | OTHER => "other"
  | ERROR => "error"
  | END => "end"

/-- The members of `class ConversationState(Enum)` in `models.py`, in
declaration order.  Note: `VEHICLE_IDENTIFICATION` and `OTHER` are absent. -/
def modelsDeclaredStates : List ConversationState :=
  [INTENT_MENU, PRODUCT_SEARCH_INIT, VEHICLE_INFO_COLLECTION,
   PART_TYPE_SELECTION, PRODUCT_PRESENTATION, PRICE_NEGOTIATION,
   ORDER_CONFIRMATION, ORDER_STATUS, TECHNICAL_INFO, RETURNS_WARRANTY,
   GENERAL_INFO, ERROR, END]

/-- `ConversationState(value)` lookup of the Python Enum: find the declared
member whose `value` equals the given string (used by
`ConversationSession.from_dict`). -/
def stateFromValue (v : String) : Option ConversationState :=
  modelsDeclaredStates.find? (fun s => stateValue s == v)

/-- The `VALID_TRANSITIONS` dict of `transitions.py`.  Keys that are not in
the dict map to `none`; `ConversationState.ERROR` maps to
`list(ConversationState)`, i.e. the members declared in `models.py`. -/
def VALID_TRANSITIONS : ConversationState → Option (List ConversationState)
  | INTENT_MENU => some [PRODUCT_SEARCH_INIT, TECHNICAL_INFO, ORDER_STATUS,
      RETURNS_WARRANTY, GENERAL_INFO, ERROR]
  | PRODUCT_SEARCH_INIT => some [VEHICLE_IDENTIFICATION, INTENT_MENU, ERROR]
  | VEHICLE_IDENTIFICATION => some [PART_TYPE_SELECTION, PRODUCT_SEARCH_INIT,
      INTENT_MENU, ERROR]
  | VEHICLE_INFO_COLLECTION => some [PART_TYPE_SELECTION, PRODUCT_SEARCH_INIT,
      ERROR]
  | PART_TYPE_SELECTION => some [PRODUCT_PRESENTATION, VEHICLE_INFO_COLLECTION,
      ERROR]
  | PRODUCT_PRESENTATION => some [PRICE_NEGOTIATION, ORDER_CONFIRMATION,
      PART_TYPE_SELECTION, INTENT_MENU, ERROR]
  | PRICE_NEGOTIATION => some [ORDER_CONFIRMATION, PRODUCT_PRESENTATION, ERROR]
  | ORDER_CONFIRMATION => some [END, INTENT_MENU, ERROR]
  | ERROR => some modelsDeclaredStates
  | END => some [INTENT_MENU]
  | _ => none

/-- `is_valid_transition` of `transitions.py`:
`to_state in VALID_TRANSITIONS.get(from_state, [])`. -/
def is_valid_transition (from_state to_state : ConversationState) : Bool :=
  match VALID_TRANSITIONS from_state with
  | some l => decide (to_state ∈ l)
  | none => false

/-- Values stored in session contexts and metadata (the fragment of Python
values the conversation core actually stores). -/
inductive PyVal where
  | vNone
  | vBool (b : Bool)
  | vInt (n : Int)
  | vStr (s : String)
  | vIntent (i : CustomerIntent)
deriving DecidableEq, Repr

/-- Python truthiness of a `PyVal` (`bool(v)`). -/
def pyTruthy : PyVal → Bool
  | .vNone => false
  | .vBool b => b
  | .vInt n => n != 0
  | .vStr s => s ≠ ""
  | .vIntent _ => true

/-- `str.strip()`: drop whitespace at both ends (structurally recursive so
that concrete runs reduce inside the kernel). -/
def pyStrip (s : String) : String :=
  String.mk
    (((s.toList.dropWhile Char.isWhitespace).reverse.dropWhile
        Char.isWhitespace).reverse)

/-- `str.startswith(prefix)`. -/
def pyStartsWith (s pre : String) : Bool :=
  pre.toList.isPrefixOf s.toList

/-- Replace the first occurrence of `pat` in a character list by `repl`
(structurally recursive; the templates below contain each placeholder once,
so this coincides with Python's replace-all `str.format`). -/
def replaceList (pat repl : List Char) : List Char → List Char
  | [] => []
  | c :: cs =>
      if pat.isPrefixOf (c :: cs) then repl ++ (c :: cs).drop pat.length
      else c :: replaceList pat repl cs

/-- `template.format(field=value)` for a single-occurrence placeholder. -/
def formatField (tmpl field value : String) : String :=
  String.mk (replaceList field.toList value.toList tmpl.toList)

/-- Dictionary read: first binding of the key, if any. -/
def dictGet (d : List (String × PyVal)) (k : String) : Option PyVal :=
  (d.find? (fun p => p.1 == k)).map (·.2)

/-- Dictionary write: overwrite in place if the key is bound, else append
(Python's insertion-ordered dict / object attribute semantics). -/
def dictSet : List (String × PyVal) → String → PyVal → List (String × PyVal)
  | [], k, v => [(k, v)]
  | (k', v') :: rest, k, v =>
      if k' = k then (k, v) :: rest else (k', v') :: dictSet rest k v

/-- The declared dataclass fields of `ConversationContext` in `models.py`,
in declaration order. -/
def contextFieldNames : List String :=
  ["current_journey", "selected_intent", "vehicle_make", "vehicle_model",
   "vehicle_year", "part_type", "part_specifications", "search_results",
   "selected_products", "language", "channel"]

/-- Default value of each declared `ConversationContext` field. -/
def contextFieldDefault (k : String) : PyVal :=
  if k = "language" then .vStr "es"
  else if k = "channel" then .vStr "web"
  else .vNone

/-- The `__dict__` of a freshly constructed
`ConversationContext(language=lang)`. -/
def newContext (lang : String) : List (String × PyVal) :=
  contextFieldNames.map
    (fun k => (k, if k = "language" then .vStr lang else contextFieldDefault k))

/-- `ConversationContext.to_dict`: `{k: v for k, v in self.__dict__.items()}`,
i.e. a copy of the object dictionary. -/
def context_to_dict (ctx : List (String × PyVal)) : List (String × PyVal) :=
  ctx

/-- `ConversationContext.from_dict`: `cls(**data)`.  The dataclass
constructor accepts exactly the declared field names (all of which have
defaults); any other key raises
`TypeError: unexpected keyword argument`. -/
def context_from_dict (data : List (String × PyVal)) :
    Except String (List (String × PyVal)) :=
  if data.all (fun p => contextFieldNames.contains p.1) then
    .ok (contextFieldNames.map
      (fun k => (k, (dictGet data k).getD (contextFieldDefault k))))
  else
    .error "TypeError: unexpected keyword argument"

/-- `context.language` attribute access. -/
def ctxLanguage (ctx : List (String × PyVal)) : String :=
  match dictGet ctx "language" with
  | some (.vStr s) => s
  | _ => "es"

/-- In-memory `ConversationSession` of `models.py` (the wall-clock
`created_at`/`updated_at` timestamps are outside the embedding; no claim
concerns them). -/
structure ConversationSession where
  session_id : String
  current_state : ConversationState
  context : List (String × PyVal)
  message_count : Nat
deriving DecidableEq, Repr

/-- The serialized session record produced by `ConversationSession.to_dict`
and stored in the cache. -/
structure StoredSession where
  session_id : String
  current_state : String
  context : List (String × PyVal)
  message_count : Nat
deriving DecidableEq, Repr

/-- `ConversationSession.to_dict` (state serialized as its `value` string,
context via `ConversationContext.to_dict`). -/
def session_to_dict (s : ConversationSession) : StoredSession :=
  { session_id := s.session_id
    current_state := stateValue s.current_state
    context := context_to_dict s.context
    message_count := s.message_count }

/-- `ConversationSession.from_dict`: `ConversationState(value)` lookup (a
`ValueError` if the stored value names no declared member) followed by
`ConversationContext.from_dict` (a `TypeError` if the stored context holds a
key that is not a declared field). -/
def session_from_dict (d : StoredSession) : Except String ConversationSession :=
  match stateFromValue d.current_state with
  | none => .error "ValueError: invalid conversation state value"
  | some st =>
      (context_from_dict d.context).map
        (fun ctx => { session_id := d.session_id, current_state := st,
                      context := ctx, message_count := d.message_count })

/-- The key/value session store (external cache), keyed by
`conversation:<session_id>`. -/
def Store := List (String × StoredSession)

instance : DecidableEq Store := by
  unfold Store
  infer_instance

/-- `cache.get(key)`. -/
def cacheGet (store : Store) (k : String) : Option StoredSession :=
  (store.find? (fun p => p.1 == k)).map (·.2)

/-- `cache.set(key, value, ttl)`: overwrite in place or append. -/
def cacheSet : Store → String → StoredSession → Store
  | [], k, v => [(k, v)]
  | (k', v') :: rest, k, v =>
      if k' = k then (k, v) :: rest else (k', v') :: cacheSet rest k v

/-- The cache key of a session (`f"conversation:{session_id}"`). -/
def sessionKey (sid : String) : String := "conversation:" ++ sid

/-- `ConversationManager._save_session`. -/
def saveSession (store : Store) (s : ConversationSession) : Store :=
  cacheSet store (sessionKey s.session_id) (session_to_dict s)

/-- `ConversationManager._get_or_create_session`: deserialize the cached
record if present (deserialization failures propagate), else create and
persist a fresh session at `INTENT_MENU` with the given language. -/
def getOrCreateSession (store : Store) (sid lang : String) :
    Except String (ConversationSession × Store) :=
  match cacheGet store (sessionKey sid) with
  | some rec => (session_from_dict rec).map (fun s => (s, store))
  | none =>
      let s : ConversationSession :=
        { session_id := sid, current_state := INTENT_MENU,
          context := newContext lang, message_count := 0 }
      .ok (s, saveSession store s)

/-- Digits of the first maximal digit run in a character list (the match of
`re.search(r'\d+', text)`). -/
def firstDigitRun : List Char → Option (List Char)
  | [] => none
  | c :: cs =>
      if c.isDigit then some (c :: cs.takeWhile Char.isDigit)
      else firstDigitRun cs

/-- `int(...)` on a digit run. -/
def digitsToNat (ds : List Char) : Nat :=
  ds.foldl (fun a c => a * 10 + (c.toNat - 48)) 0

/-- `re.search(r'\d+', text)` followed by `int(match.group())`. -/
def extractFirstNumber (s : String) : Option Nat :=
  (firstDigitRun s.toList).map digitsToNat

/-- The `intent_mapping` of `utils/parser.py`: digit strings "1".."6". -/
def intentOfNumber : Nat → Option CustomerIntent
  | 1 => some .PRODUCT_SEARCH
  | 2 => some .TECHNICAL_INFO
  | 3 => some .ORDER_STATUS
  | 4 => some .RETURNS_WARRANTY
  | 5 => some .GENERAL_INFO
  | 6 => some .OTHER
  | _ => none

/-- Result record of intent parsing (`ParsedIntent` dataclass). -/
structure ParsedIntent where
  intent : Option CustomerIntent
  confidence : ℚ
  raw_input : String
  extracted_number : Option Nat := none
deriving DecidableEq, Repr

/-- `IntentParser.parse_intent` of `utils/parser.py` — the parser the Menu
handler instantiates.  It extracts the first integer of the input and maps
1..6 to an intent with confidence 1.0; it has no keyword fallback: every
other input yields no intent with confidence 0.0. -/
def utilsParseIntent (user_input : String) : ParsedIntent :=
  if user_input = "" then
    { intent := none, confidence := 0, raw_input := user_input }
  else
    match extractFirstNumber (pyStrip user_input) with
    | some n =>
        if 1 ≤ n ∧ n ≤ 6 then
          { intent := intentOfNumber n, confidence := 1,
            raw_input := user_input, extracted_number := some n }
        else
          { intent := none, confidence := 0, raw_input := user_input,
            extracted_number := some n }
    | none =>
        { intent := none, confidence := 0, raw_input := user_input }

/-- The `text_intent_mapping` of `intents/parser.py` (the legacy parser), in
source declaration order.  Note that neither "pastillas" nor "pads" occurs
in it. -/
def legacyTextIntentMapping : List (String × CustomerIntent) :=
  [("búsqueda", .PRODUCT_SEARCH), ("buscar", .PRODUCT_SEARCH),
   ("producto", .PRODUCT_SEARCH), ("repuesto", .PRODUCT_SEARCH),
   ("parte", .PRODUCT_SEARCH), ("freno", .PRODUCT_SEARCH),
   ("técnico", .TECHNICAL_INFO), ("técnica", .TECHNICAL_INFO),
   ("información", .TECHNICAL_INFO), ("especificación", .TECHNICAL_INFO),
   ("pedido", .ORDER_STATUS), ("orden", .ORDER_STATUS),
   ("entrega", .ORDER_STATUS), ("estado", .ORDER_STATUS),
   ("devolución", .RETURNS_WARRANTY), ("garantía", .RETURNS_WARRANTY),
   ("retorno", .RETURNS_WARRANTY),
   ("general", .GENERAL_INFO), ("tienda", .GENERAL_INFO),
   ("empresa", .GENERAL_INFO),
   ("otro", .OTHER), ("otra", .OTHER),
   ("search", .PRODUCT_SEARCH), ("product", .PRODUCT_SEARCH),
   ("part", .PRODUCT_SEARCH), ("brake", .PRODUCT_SEARCH),
   ("technical", .TECHNICAL_INFO), ("specification", .TECHNICAL_INFO),
   ("info", .TECHNICAL_INFO),
   ("order", .ORDER_STATUS), ("delivery", .ORDER_STATUS),
   ("status", .ORDER_STATUS),
   ("return", .RETURNS_WARRANTY), ("warranty", .RETURNS_WARRANTY),
   ("store", .GENERAL_INFO), ("company", .GENERAL_INFO),
   ("other", .OTHER)]

/-- Occurrence of `pat` as a contiguous run of `l`. -/
def listIsInfix (pat : List Char) : List Char → Bool
  | [] => pat.isEmpty
  | c :: cs => pat.isPrefixOf (c :: cs) || listIsInfix pat cs

/-- `keyword in text` substring test. -/
def containsSubstr (text pat : String) : Bool :=
  listIsInfix pat.toList text.toList

/-- `IntentParser._detect_text_intent` of `intents/parser.py`: collect the
lexicon entries whose keyword occurs in the (already lowercased) text and
return the first with confidence 0.6, or no intent with confidence 0.0. -/
def legacyDetectTextIntent (text : String) : Option CustomerIntent × ℚ :=
  let found :=
    (legacyTextIntentMapping.filter (fun kv => containsSubstr text kv.1)).map
      (·.2)
  match found with
  | [] => (none, 0)
  | i :: _ => (some i, 6/10)

/-- A handler's return triple `(response, next_state or None, context
updates or None)`. -/
def HandlerTriple :=
  String × Option ConversationState × Option (List (String × PyVal))

/-- Menu template table of one language (`journeys/menu/templates.yaml`). -/
structure MenuTemplates where
  menu : String
  invalid_selection : String
  product_search_selected : String
  not_implemented : String

/-- Modelled from the spec: `journeys/menu/templates.yaml` is not in the
source tree, only the code that indexes it (`self.templates[language][key]`,
a `KeyError` on an unsupported language).  Per the spec the menu is a
localized numbered 1..6 menu, the invalid-selection message echoes the
user's input, and options 2..6 answer "not yet available, try option 1". -/
def menuTemplates : String → Option MenuTemplates
  | "es" => some
      { menu := "Hola, soy tu asistente de repuestos. Elige una opción:\n1. Buscar productos\n2. Información técnica\n3. Estado de pedido\n4. Devoluciones y garantía\n5. Información general\n6. Otro"
        invalid_selection := "No entendí tu selección: \"{user_input}\". Por favor elige una opción del 1 al 6."
        product_search_selected := "Perfecto, vamos a buscar el repuesto para tu vehículo."
        not_implemented := "La opción {intent_name} aún no está disponible. Intenta la opción 1."
      }
  | "en" => some
      { menu := "Hi, I am your auto-parts assistant. Pick an option:\n1. Search products\n2. Technical information\n3. Order status\n4. Returns and warranty\n5. General information\n6. Other"
        invalid_selection := "I did not understand your selection: \"{user_input}\". Please pick an option from 1 to 6."
        product_search_selected := "Great, let us find the part for your vehicle."
        not_implemented := "The option {intent_name} is not yet available. Try option 1."
      }
  | _ => none

/-- `str.format(user_input=msg)` on a template. -/
def formatUserInput (tmpl input : String) : String :=
  formatField tmpl "{user_input}" input

/-- The Python `.name` of a customer intent (used to index the
`intent_names` template map). -/
def intentEnumName : CustomerIntent → String
  | .PRODUCT_SEARCH => "PRODUCT_SEARCH"
  | .TECHNICAL_INFO => "TECHNICAL_INFO"
  | .ORDER_STATUS => "ORDER_STATUS"
  | .RETURNS_WARRANTY => "RETURNS_WARRANTY"
  | .GENERAL_INFO => "GENERAL_INFO"
  | .OTHER => "OTHER"

/-- `IntentMenuState.get_entry_message`: `self.templates[language]["menu"]`
(a `KeyError` on a language absent from the template table). -/
def getEntryMessage (language : String) : Except String String :=
  match menuTemplates language with
  | some t => .ok t.menu
  | none => .error "KeyError: unsupported language"

/-- `IntentMenuState.process_message` of `journeys/menu/state.py`: parse the
input with the utils `IntentParser`; no intent re-renders an
invalid-selection message with no transition; `PRODUCT_SEARCH` transitions
to `PRODUCT_SEARCH_INIT` with a context patch; any other intent answers
not-implemented with no transition. -/
def menuProcessMessage (sess : ConversationSession) (msg : String) :
    Except String HandlerTriple :=
  let language := ctxLanguage sess.context
  match menuTemplates language with
  | none => .error "KeyError: unsupported language"
  | some t =>
      let parsed := utilsParseIntent msg
      match parsed.intent with
      | none => .ok (formatUserInput t.invalid_selection msg, none, none)
      | some .PRODUCT_SEARCH =>
          .ok (t.product_search_selected, some PRODUCT_SEARCH_INIT,
               some [("selected_intent", .vIntent .PRODUCT_SEARCH),
                     ("current_journey", .vStr "product_search")])
      | some i =>
          .ok (formatField t.not_implemented "{intent_name}" (intentEnumName i),
               none, none)

/-- The keys of `ProductSearchJourney.states` in
`journeys/product_search/journey.py`.  `PART_TYPE_SELECTION` and
`PRODUCT_PRESENTATION` are commented out in the source, so the journey does
not claim them. -/
def productSearchHandledStates : List ConversationState :=
  [PRODUCT_SEARCH_INIT, VEHICLE_IDENTIFICATION]

/-- `ProductSearchJourney.handles_state`: `state in self.states`. -/
def productSearchHandlesState (s : ConversationState) : Bool :=
  decide (s ∈ productSearchHandledStates)

/-- `get_journey_handler` of `journeys/__init__.py`: the registry holds only
the product-search journey, so a handler exists exactly when that journey
claims the state. -/
def journeyHandlerExists (s : ConversationState) : Bool :=
  productSearchHandlesState s

/-- Modelled from the spec: `journeys/product_search/templates.yaml` is not
in the source tree, only `BaseState.get_template`'s lookup discipline
(language table with "es" fallback, `[Missing template: key]` default).
Holds the localized "missing vehicle info" message the spec names. -/
def psTemplate (language key : String) : String :=
  if key = "missing_vehicle_info" then
    if language = "en" then
      "I need your vehicle information first. Taking you back to vehicle identification."
    else
      "Primero necesito los datos de tu vehículo. Volvamos a la identificación del vehículo."
  else
    "[Missing template: " ++ key ++ "]"

/-- `PartSelectionState.process` of
`journeys/product_search/part_selection.py`.  The three embedded sub-command
branches and the category-fetch branch (entered when vehicle context is
present) call the TecDoc/inventory collaborators, which are external: they
are represented by the `collaborator` outcome parameter.  (In the source the
category-fetch branch additionally returns an undefined `context_updates`
name, a `NameError`.)  The vehicle-context check itself is fully embedded:
without a truthy `vehicle_id` and `manufacturer_id` it returns the
missing-vehicle-info template and proposes `VEHICLE_IDENTIFICATION`. -/
def partSelectionProcess (collaborator : String → Except String HandlerTriple)
    (sess : ConversationSession) (msg : String) :
    Except String HandlerTriple :=
  if pyStartsWith msg "GET_CATEGORIES:" then collaborator msg
  else if pyStartsWith msg "GET_ARTICLES:" then collaborator msg
  else if pyStartsWith msg "CATEGORY_SELECTED:" then collaborator msg
  else
    let language := ctxLanguage sess.context
    let vehicle_id := (dictGet sess.context "vehicle_id").getD .vNone
    let manufacturer_id := (dictGet sess.context "manufacturer_id").getD .vNone
    if !pyTruthy vehicle_id || !pyTruthy manufacturer_id then
      .ok (psTemplate language "missing_vehicle_info",
           some VEHICLE_IDENTIFICATION, none)
    else
      collaborator msg

/-- Response metadata record. -/
def Metadata := List (String × PyVal)

instance : DecidableEq Metadata := by
  unfold Metadata
  infer_instance

/-- The context-patch merge of `ConversationManager.process_message` (lines
76-82): `setattr` when the attribute exists, otherwise insert into
`__dict__` — in both cases an ordered overwrite-or-append. -/
def mergeContextUpdates (ctx updates : List (String × PyVal)) :
    List (String × PyVal) :=
  updates.foldl (fun c kv => dictSet c kv.1 kv.2) ctx

/-- The context update of `ConversationManager._transition_state`: only
`setattr` on existing attributes, unknown keys are silently skipped. -/
def applyUpdatesExisting (ctx updates : List (String × PyVal)) :
    List (String × PyVal) :=
  updates.foldl
    (fun c kv => if (c.find? (fun p => p.1 == kv.1)).isSome then
                   dictSet c kv.1 kv.2
                 else c)
    ctx

/-- `ConversationManager._transition_state`: set the state, apply any
context updates to existing attributes, persist. -/
def transitionState (store : Store) (sess : ConversationSession)
    (new_state : ConversationState)
    (context_updates : Option (List (String × PyVal))) :
    ConversationSession × Store :=
  let sess' : ConversationSession :=
    { sess with
      current_state := new_state
      context := match context_updates with
        | some u => applyUpdatesExisting sess.context u
        | none => sess.context }
  (sess', saveSession store sess')

/-- `ConversationManager._get_error_message` (string literals exactly as in
the source file, whose Spanish text carries a mojibake encoding). -/
def genericErrorMessage (language : String) : String :=
  if language = "es" then
    "Lo siento, ocurriÃ³ un error. Por favor intenta de nuevo."
  else
    "Sorry, an error occurred. Please try again."

/-- `ConversationManager._get_language_change_response`: localized banner
followed by the menu entry message in the session's (new) language. -/
def languageChangeResponse (sess : ConversationSession) :
    Except String (String × Metadata) :=
  let lang := ctxLanguage sess.context
  let banner :=
    if lang = "es" then "El idioma ha sido cambiado a espaÃ±ol. ðŸ‡ªðŸ‡¸\n\n"
    else "Language has been changed to English. ðŸ‡ºðŸ‡¸\n\n"
  (getEntryMessage lang).map
    (fun m => (banner ++ m,
               [("language_changed", .vBool true), ("language", .vStr lang)]))

/-- The dispatch step of `ConversationManager.process_message` (lines
54-74): the Menu handler at `INTENT_MENU`; the journey's awaited
`process_state` where a journey claims the state (its outcome — including a
raised exception — is the external `journeyOutcome` parameter); otherwise
the not-implemented fallback that proposes `INTENT_MENU`. -/
def dispatchHandler (sess : ConversationSession) (msg : String)
    (journeyOutcome : Except String HandlerTriple) :
    Except String HandlerTriple :=
  if sess.current_state = INTENT_MENU then
    menuProcessMessage sess msg
  else if journeyHandlerExists sess.current_state then
    journeyOutcome
  else
    .ok ("Sorry, this feature is not implemented yet.", some INTENT_MENU, none)

/-- The merge/commit/metadata tail of `ConversationManager.process_message`
(lines 76-109), total once the dispatch produced a triple: merge and persist
a context patch if present; validate and commit a proposed state change,
forcing `ERROR` (and overwriting the response with the generic error
message) when the proposed transition is off the map; build metadata. -/
def afterDispatch (store : Store) (sess : ConversationSession) (lang : String)
    (triple : HandlerTriple) : (String × Metadata) × Store :=
  let response := triple.1
  let newState? := triple.2.1
  let updates? := triple.2.2
  let (sess1, store1) :=
    match updates? with
    | some u =>
        let s' := { sess with context := mergeContextUpdates sess.context u }
        (s', saveSession store s')
    | none => (sess, store)
  let (response2, sess2, store2) :=
    match newState? with
    | some ns =>
        if ns ≠ sess1.current_state then
          if is_valid_transition sess1.current_state ns then
            let (s2, st2) := transitionState store1 sess1 ns updates?
            (response, s2, st2)
          else
            let (s2, st2) := transitionState store1 sess1 ERROR none
            (genericErrorMessage lang, s2, st2)
        else (response, sess1, store1)
    | none => (response, sess1, store1)
  let metadata : Metadata :=
    [("state", .vStr (stateValue sess2.current_state)),
     ("journey", (dictGet sess2.context "current_journey").getD .vNone),
     ("language", .vStr lang),
     ("message_count", .vInt sess2.message_count)]
  ((response2, metadata), store2)

/-- `ConversationManager.process_message`.  Returns the possibly-raised
result together with the resulting session store.  An empty (or
whitespace-only) message is the greeting path; a stored language differing
from the requested one is the hard language reset; otherwise dispatch runs
under the top-level try/except, whose recovery forces `ERROR`, persists, and
returns the generic error message with `{error: description}` metadata.
Exceptions raised while loading the session or rendering templates outside
the try block propagate as `.error`. -/
def processMessage (store : Store) (sid msg lang : String)
    (journeyOutcome : Except String HandlerTriple) :
    Except String (String × Metadata) × Store :=
  if pyStrip msg = "" then
    match getOrCreateSession store sid lang with
    | .error e => (.error e, store)
    | .ok (_, store') =>
        match getEntryMessage lang with
        | .error e => (.error e, store')
        | .ok m =>
            (.ok (m, [("state", .vStr "intent_menu"),
                      ("initial_greeting", .vBool true),
                      ("language", .vStr lang)]), store')
  else
    match getOrCreateSession store sid lang with
    | .error e => (.error e, store)
    | .ok (sess, store0) =>
        if ctxLanguage sess.context ≠ lang then
          let fresh : ConversationSession :=
            { session_id := sid, current_state := INTENT_MENU,
              context := newContext lang, message_count := 0 }
          let store1 := saveSession store0 fresh
          match languageChangeResponse fresh with
          | .error e => (.error e, store1)
          | .ok pm => (.ok pm, store1)
        else
          match dispatchHandler sess msg journeyOutcome with
          | .error e =>
              let (_, store1) := transitionState store0 sess ERROR none
              (.ok (genericErrorMessage lang, [("error", .vStr e)]), store1)
          | .ok triple =>
              let (pm, store1) := afterDispatch store0 sess lang triple
              (.ok pm, store1)

/-- The `current_state` value string of the record persisted for a session
id, if any. -/
def storedStateValue (store : Store) (sid : String) : Option String :=
  (cacheGet store (sessionKey sid)).map (·.current_state)

/-- The `message_count` of the record persisted for a session id, if any. -/
def storedMessageCount (store : Store) (sid : String) : Option Nat :=
  (cacheGet store (sessionKey sid)).map (·.message_count)

/-- `ConversationStateManager.increment_message_count` of the legacy
`fsm/state_manager.py` (not invoked by `ConversationManager`): load, add one
to `message_count`, persist. -/
def legacyIncrementMessageCount (sess : ConversationSession) :
    ConversationSession :=
  { sess with message_count := sess.message_count + 1 }

theorem cacheGet_cacheSet_self (st : Store) (k : String) (v : StoredSession) :
    cacheGet (cacheSet st k v) k = some v := by
  induction st with
  | nil => simp [cacheSet, cacheGet]
  | cons hd tl ih =>
      obtain ⟨k', v'⟩ := hd
      by_cases h : k' = k
      · simp [cacheSet, h, cacheGet]
      · simpa [cacheSet, h, cacheGet, h] using ih

theorem stateFromValue_stateValue {v : String} {s : ConversationState}
    (h : stateFromValue v = some s) : stateValue s = v := by
  have := List.find?_some h
  simpa using this

theorem session_from_dict_fields {rec : StoredSession}
    {sess : ConversationSession} (h : session_from_dict rec = .ok sess) :
    sess.session_id = rec.session_id ∧
    stateValue sess.current_state = rec.current_state ∧
    sess.message_count = rec.message_count := by
  unfold session_from_dict at h
  cases hS : stateFromValue rec.current_state with
  | none => rw [hS] at h; cases h
  | some st =>
      rw [hS] at h
      cases hC : context_from_dict rec.context with
      | error e => rw [hC] at h; cases h
      | ok ctx =>
          rw [hC] at h
          cases h
          exact ⟨rfl, stateFromValue_stateValue hS, rfl⟩

theorem ctxLanguage_newContext (lang : String) :
    ctxLanguage (newContext lang) = lang := rfl

theorem storedMessageCount_saveSession (store : Store)
    (s : ConversationSession) :
    storedMessageCount (saveSession store s) s.session_id =
      some s.message_count := by
  simp [storedMessageCount, saveSession, cacheGet_cacheSet_self,
        session_to_dict]

theorem storedStateValue_saveSession (store : Store)
    (s : ConversationSession) :
    storedStateValue (saveSession store s) s.session_id =
      some (stateValue s.current_state) := by
  simp [storedStateValue, saveSession, cacheGet_cacheSet_self,
        session_to_dict]

theorem afterDispatch_message_count (store : Store)
    (sess : ConversationSession) (lang : String) (triple : HandlerTriple)
    (h : storedMessageCount store sess.session_id = some sess.message_count) :
    storedMessageCount ((afterDispatch store sess lang triple).2)
      sess.session_id = some sess.message_count := by
  obtain ⟨resp, ns?, up?⟩ := triple
  cases up? with
  | none =>
      cases ns? with
      | none => simpa [afterDispatch] using h
      | some ns =>
          by_cases h1 : ns = sess.current_state
          · simpa [afterDispatch, h1] using h
          · by_cases h2 : is_valid_transition sess.current_state ns
            · simpa [afterDispatch, h1, h2, transitionState] using
                storedMessageCount_saveSession store
                  { sess with current_state := ns }
            · simpa [afterDispatch, h1, h2, transitionState] using
                storedMessageCount_saveSession store
                  { sess with current_state := ERROR }
  | some u =>
      cases ns? with
      | none =>
          simpa [afterDispatch] using
            storedMessageCount_saveSession store
              { sess with context := mergeContextUpdates sess.context u }
      | some ns =>
          by_cases h1 : ns = sess.current_state
          · simpa [afterDispatch, h1] using
              storedMessageCount_saveSession store
                { sess with context := mergeContextUpdates sess.context u }
          · by_cases h2 : is_valid_transition sess.current_state ns
            · simpa [afterDispatch, h1, h2, transitionState] using
                storedMessageCount_saveSession
                  (saveSession store
                    { sess with context := mergeContextUpdates sess.context u })
                  { sess with
                      current_state := ns
                      context := applyUpdatesExisting
                        (mergeContextUpdates sess.context u) u }
            · simpa [afterDispatch, h1, h2, transitionState] using
                storedMessageCount_saveSession
                  (saveSession store
                    { sess with context := mergeContextUpdates sess.context u })
                  { sess with
                      current_state := ERROR
                      context := mergeContextUpdates sess.context u }

theorem afterDispatch_stored_state (store : Store)
    (sess : ConversationSession) (lang : String) (triple : HandlerTriple)
    (h0 : storedStateValue store sess.session_id =
            some (stateValue sess.current_state)) :
    ∀ v, storedStateValue ((afterDispatch store sess lang triple).2)
           sess.session_id = some v →
      v = stateValue sess.current_state ∨
      (∃ ns, v = stateValue ns ∧
        is_valid_transition sess.current_state ns = true) ∨
      v = stateValue ERROR := by
  intro v hv
  obtain ⟨resp, ns?, up?⟩ := triple
  cases up? with
  | none =>
      cases ns? with
      | none =>
          simp only [afterDispatch] at hv
          rw [h0] at hv
          exact Or.inl (Option.some_injective _ hv).symm
      | some ns =>
          by_cases h1 : ns = sess.current_state
          · simp only [afterDispatch, h1] at hv
            simp at hv
            rw [h0] at hv
            exact Or.inl (Option.some_injective _ hv).symm
          · by_cases h2 : is_valid_transition sess.current_state ns
            · have := storedStateValue_saveSession store
                { sess with current_state := ns }
              simp only [afterDispatch, h1, h2, transitionState] at hv
              simp [h1, h2] at hv
              rw [this] at hv
              exact Or.inr (Or.inl ⟨ns, (Option.some_injective _ hv).symm, h2⟩)
            · have := storedStateValue_saveSession store
                { sess with current_state := ERROR }
              simp only [afterDispatch, h1, h2, transitionState] at hv
              simp [h1, h2] at hv
              rw [this] at hv
              exact Or.inr (Or.inr (Option.some_injective _ hv).symm)
  | some u =>
      cases ns? with
      | none =>
          have := storedStateValue_saveSession store
            { sess with context := mergeContextUpdates sess.context u }
          simp only [afterDispatch] at hv
          rw [this] at hv
          exact Or.inl (Option.some_injective _ hv).symm
      | some ns =>
          by_cases h1 : ns = sess.current_state
          · have := storedStateValue_saveSession store
              { sess with context := mergeContextUpdates sess.context u }
            simp only [afterDispatch, h1] at hv
            simp at hv
            rw [this] at hv
            exact Or.inl (Option.some_injective _ hv).symm
          · by_cases h2 : is_valid_transition sess.current_state ns
            · have := storedStateValue_saveSession
                (saveSession store
                  { sess with context := mergeContextUpdates sess.context u })
                { sess with
                    current_state := ns
                    context := applyUpdatesExisting
                      (mergeContextUpdates sess.context u) u }
              simp only [afterDispatch, h1, h2, transitionState] at hv
              simp [h1, h2] at hv
              rw [this] at hv
              exact Or.inr (Or.inl ⟨ns, (Option.some_injective _ hv).symm, h2⟩)
            · have := storedStateValue_saveSession
                (saveSession store
                  { sess with context := mergeContextUpdates sess.context u })
                { sess with
                    current_state := ERROR
                    context := mergeContextUpdates sess.context u }
              simp only [afterDispatch, h1, h2, transitionState] at hv
              simp [h1, h2] at hv
              rw [this] at hv
              exact Or.inr (Or.inr (Option.some_injective _ hv).symm)

/-- C2 (counterexample): at `INTENT_MENU` with persisted `message_count = 5`,
processing the non-empty message "9" with matching language leaves the store
— and hence the persisted `message_count` — entirely unchanged at 5;
`ConversationManager.process_message` does not increment it by one. -/
theorem c2_message_count_not_incremented :
    (processMessage
        [(sessionKey "m1",
          session_to_dict
            { session_id := "m1", current_state := INTENT_MENU,
              context := newContext "es", message_count := 5 })]
        "m1" "9" "es" (.ok ("x", none, none))).2 =
      [(sessionKey "m1",
        session_to_dict
          { session_id := "m1", current_state := INTENT_MENU,
            context := newContext "es", message_count := 5 })] ∧
    storedMessageCount
      ((processMessage
          [(sessionKey "m1",
            session_to_dict
              { session_id := "m1", current_state := INTENT_MENU,
                context := newContext "es", message_count := 5 })]
          "m1" "9" "es" (.ok ("x", none, none))).2) "m1" = some 5 :=
  ⟨rfl, rfl⟩

/-- C2 (amended): `ConversationManager.process_message` never modifies
`message_count`: for every non-empty message processed without a language
switch on a loadable stored session, the persisted `message_count` after the
call equals the one before it (in particular it never decreases over any
such sequence of messages).  The per-message increment exists only in the
legacy `ConversationStateManager.increment_message_count`, which
`ConversationManager` does not invoke. -/
theorem c2_message_count_preserved
    (store : Store) (sid msg lang : String)
    (oc : Except String HandlerTriple)
    (rec : StoredSession) (sess : ConversationSession)
    (hGet : cacheGet store (sessionKey sid) = some rec)
    (hSess : session_from_dict rec = .ok sess)
    (hId : rec.session_id = sid)
    (hMsg : pyStrip msg ≠ "")
    (hLang : ctxLanguage sess.context = lang) :
    storedMessageCount ((processMessage store sid msg lang oc).2) sid =
      storedMessageCount store sid := by
  obtain ⟨hSid, hState, hCount⟩ := session_from_dict_fields hSess
  have hKey : sess.session_id = sid := hSid.trans hId
  have hMC : storedMessageCount store sid = some sess.message_count := by
    simp [storedMessageCount, hGet, hCount]
  have hGoc : getOrCreateSession store sid lang = .ok (sess, store) := by
    simp [getOrCreateSession, hGet, hSess, Except.map]
  rw [hMC]
  simp only [processMessage, if_neg hMsg, hGoc]
  rw [if_neg (by simp [hLang])]
  cases hD : dispatchHandler sess msg oc with
  | error e =>
      simp only [transitionState]
      have := storedMessageCount_saveSession store
        { sess with current_state := ERROR }
      simpa [hKey] using this
  | ok triple =>
      have := afterDispatch_message_count store sess lang triple
        (by rw [hKey]; exact hMC)
      simpa [hKey] using this

/-- C2 (witness): the amended theorem applied at the concrete
`INTENT_MENU` session with `message_count = 5`, message "9". -/
theorem c2_message_count_preserved_witness :
    storedMessageCount
      ((processMessage
          [(sessionKey "m1",
            session_to_dict
              { session_id := "m1", current_state := INTENT_MENU,
                context := newContext "es", message_count := 5 })]
          "m1" "9" "es" (.ok ("x", none, none))).2) "m1" =
      storedMessageCount
        [(sessionKey "m1",
          session_to_dict
            { session_id := "m1", current_state := INTENT_MENU,
              context := newContext "es", message_count := 5 })] "m1" :=
  c2_message_count_preserved _ "m1" "9" "es" (.ok ("x", none, none))
    (session_to_dict
      { session_id := "m1", current_state := INTENT_MENU,
        context := newContext "es", message_count := 5 })
    { session_id := "m1", current_state := INTENT_MENU,
      context := newContext "es", message_count := 5 }
    rfl rfl rfl (by decide) rfl

/-- C3: merging the dynamic slot `vehicle_id` (not a declared
`ConversationContext` field) succeeds and `to_dict` serializes it, but
`from_dict` (`cls(**data)`) then raises `TypeError` on the unknown keyword,
so the round trip fails and a session persisted after such a patch cannot be
loaded on the next message (`process_message` propagates the `TypeError`). -/
theorem c3_dynamic_slot_round_trip_fails :
    context_from_dict
        (context_to_dict
          (mergeContextUpdates (newContext "es") [("vehicle_id", .vInt 123)])) =
      .error "TypeError: unexpected keyword argument" ∧
    dictGet (mergeContextUpdates (newContext "es") [("vehicle_id", .vInt 123)])
        "vehicle_id" = some (.vInt 123) ∧
    (processMessage
        [(sessionKey "c3",
          { session_id := "c3", current_state := "part_type_selection",
            context := mergeContextUpdates (newContext "es")
              [("vehicle_id", .vInt 123)],
            message_count := 2 })]
        "c3" "hola" "es" (.ok ("x", none, none))).1 =
      .error "TypeError: unexpected keyword argument" :=
  ⟨rfl, rfl, rfl⟩

/-- C4 (counterexample): `process_message` does not always return a pair —
loading a stored session whose context carries a dynamic slot raises a
`TypeError` outside the top-level try/except, which propagates to the
caller. -/
theorem c4_load_failure_propagates :
    (processMessage
        [(sessionKey "c4",
          { session_id := "c4", current_state := "intent_menu",
            context := mergeContextUpdates (newContext "es")
              [("manufacturer_id", .vInt 45)],
            message_count := 0 })]
        "c4" "hola" "es" (.ok ("x", none, none))).1 =
      .error "TypeError: unexpected keyword argument" :=
  rfl

/-- C4 (amended): whenever the session loads (or is created) successfully
and the requested language is supported, `process_message` returns a
`(text, metadata)` pair; and any failure raised during dispatch is caught by
the top-level try/except, which forces `current_state = ERROR`, persists the
session, and returns the localized generic error message with
`{error: description}` metadata.  Failures raised while loading the session
itself (before the try block) propagate — see the counterexample. -/
theorem c4_dispatch_failure_recovered
    (store : Store) (sid msg lang : String)
    (oc : Except String HandlerTriple)
    (sess : ConversationSession) (store0 : Store)
    (hGoc : getOrCreateSession store sid lang = .ok (sess, store0))
    (hKey : sess.session_id = sid)
    (hL : lang = "es" ∨ lang = "en") :
    (∃ p, (processMessage store sid msg lang oc).1 = Except.ok p) ∧
    (∀ e, pyStrip msg ≠ "" → ctxLanguage sess.context = lang →
      dispatchHandler sess msg oc = .error e →
      (processMessage store sid msg lang oc).1 =
        .ok (genericErrorMessage lang, [("error", .vStr e)]) ∧
      storedStateValue (processMessage store sid msg lang oc).2 sid =
        some "error") := by
  constructor
  · by_cases hm : pyStrip msg = ""
    · rcases hL with h | h <;> subst h <;>
        · simp only [processMessage, if_pos hm, hGoc, getEntryMessage,
            menuTemplates]
          exact ⟨_, rfl⟩
    · by_cases hc : ctxLanguage sess.context = lang
      · cases hD : dispatchHandler sess msg oc with
        | error e =>
            simp only [processMessage, if_neg hm, hGoc]
            rw [if_neg (by simp [hc]), hD]
            exact ⟨_, rfl⟩
        | ok triple =>
            simp only [processMessage, if_neg hm, hGoc]
            rw [if_neg (by simp [hc]), hD]
            exact ⟨_, rfl⟩
      · rcases hL with h | h <;> subst h <;>
          · simp only [processMessage, if_neg hm, hGoc]
            rw [if_pos (by simpa using hc)]
            simp only [languageChangeResponse, ctxLanguage_newContext,
              getEntryMessage, menuTemplates]
            exact ⟨_, rfl⟩
  · intro e hm hc hD
    have hni : ¬ (ctxLanguage sess.context ≠ lang) := by simp [hc]
    constructor
    · simp only [processMessage, if_neg hm, hGoc]
      rw [if_neg hni, hD]
    · simp only [processMessage, if_neg hm, hGoc]
      rw [if_neg hni, hD]
      simp only [transitionState]
      have := storedStateValue_saveSession store0
        { sess with current_state := ERROR }
      simpa [hKey] using this

/-- C4 (witness): the amended theorem applied to a session at
`PRODUCT_SEARCH_INIT` whose journey handler raises `"boom"`. -/
theorem c4_dispatch_failure_recovered_witness :
    (processMessage
        [(sessionKey "w4",
          session_to_dict
            { session_id := "w4", current_state := PRODUCT_SEARCH_INIT,
              context := newContext "es", message_count := 1 })]
        "w4" "hola" "es" (.error "boom")).1 =
      .ok (genericErrorMessage "es", [("error", .vStr "boom")]) ∧
    storedStateValue
      ((processMessage
          [(sessionKey "w4",
            session_to_dict
              { session_id := "w4", current_state := PRODUCT_SEARCH_INIT,
                context := newContext "es", message_count := 1 })]
          "w4" "hola" "es" (.error "boom")).2) "w4" = some "error" :=
  (c4_dispatch_failure_recovered
      [(sessionKey "w4",
        session_to_dict
          { session_id := "w4", current_state := PRODUCT_SEARCH_INIT,
            context := newContext "es", message_count := 1 })]
      "w4" "hola" "es" (.error "boom")
      { session_id := "w4", current_state := PRODUCT_SEARCH_INIT,
        context := newContext "es", message_count := 1 }
      [(sessionKey "w4",
        session_to_dict
          { session_id := "w4", current_state := PRODUCT_SEARCH_INIT,
            context := newContext "es", message_count := 1 })]
      rfl rfl (Or.inl rfl)).2 "boom" (by decide) rfl rfl

/-- C5 (counterexample): the Manager does persist an off-map pair.  A
session at `TECHNICAL_INFO` (a state with no entry in the transition map)
receives a message; no journey claims the state, the fallback proposes
`INTENT_MENU`, the validation rejects it, and the ERROR-forcing recovery
commits `(TECHNICAL_INFO, ERROR)` — a pair for which `is_valid_transition`
is false — to the store. -/
theorem c5_offmap_error_commit_persisted :
    is_valid_transition TECHNICAL_INFO ERROR = false ∧
    storedStateValue
      [(sessionKey "t1",
        session_to_dict
          { session_id := "t1", current_state := TECHNICAL_INFO,
            context := newContext "es", message_count := 0 })] "t1" =
      some "technical_info" ∧
    storedStateValue
      ((processMessage
          [(sessionKey "t1",
            session_to_dict
              { session_id := "t1", current_state := TECHNICAL_INFO,
                context := newContext "es", message_count := 0 })]
          "t1" "hola" "es" (.ok ("x", none, none))).2) "t1" =
      some "error" :=
  ⟨rfl, rfl, rfl⟩

/-- C5 (amended): every pair absent from the static map is invalid, and on
the validated commit path the Manager only persists on-map pairs: after
processing a non-empty message without language switch, the persisted state
is unchanged, or reached by an edge the validator accepts, or is the forced
`ERROR` of a recovery path — and that forced `(previous, ERROR)` commit is
performed without validation, so it can itself be off-map (see the
counterexample). -/
theorem c5_transition_closure_and_commits :
    (∀ f t : ConversationState,
      (∀ l, VALID_TRANSITIONS f = some l → t ∉ l) →
      is_valid_transition f t = false) ∧
    (∀ (store : Store) (sid msg lang : String)
       (oc : Except String HandlerTriple)
       (rec : StoredSession) (sess : ConversationSession),
      cacheGet store (sessionKey sid) = some rec →
      session_from_dict rec = .ok sess →
      rec.session_id = sid →
      pyStrip msg ≠ "" →
      ctxLanguage sess.context = lang →
      ∀ v, storedStateValue ((processMessage store sid msg lang oc).2) sid =
             some v →
        v = stateValue sess.current_state ∨
        (∃ ns, v = stateValue ns ∧
          is_valid_transition sess.current_state ns = true) ∨
        v = stateValue ERROR) := by
  constructor
  · intro f t h
    unfold is_valid_transition
    cases hV : VALID_TRANSITIONS f with
    | none => rfl
    | some l => simpa using h l hV
  · intro store sid msg lang oc rec sess hGet hSess hId hMsg hLang v hv
    obtain ⟨hSid, hState, hCount⟩ := session_from_dict_fields hSess
    have hKey : sess.session_id = sid := hSid.trans hId
    have hSV : storedStateValue store sid =
        some (stateValue sess.current_state) := by
      simp [storedStateValue, hGet, hState]
    have hGoc : getOrCreateSession store sid lang = .ok (sess, store) := by
      simp [getOrCreateSession, hGet, hSess, Except.map]
    simp only [processMessage, if_neg hMsg, hGoc] at hv
    rw [if_neg (by simp [hLang])] at hv
    cases hD : dispatchHandler sess msg oc with
    | error e =>
        rw [hD] at hv
        simp only [transitionState] at hv
        have hS : storedStateValue
            (saveSession store { sess with current_state := ERROR }) sid =
            some "error" := by
          simpa [hKey] using storedStateValue_saveSession store
            { sess with current_state := ERROR }
        rw [hS] at hv
        exact Or.inr (Or.inr (Option.some_injective _ hv).symm)
    | ok triple =>
        rw [hD] at hv
        dsimp only at hv
        refine afterDispatch_stored_state store sess lang triple
          (by rw [hKey]; exact hSV) v ?_
        rw [hKey]
        exact hv

/-- C5 (witness): the commit half of the amended theorem applied at a
concrete `INTENT_MENU` session with message "9" (no state change). -/
theorem c5_transition_closure_and_commits_witness :
    "intent_menu" =
      stateValue
        (ConversationSession.current_state
          { session_id := "m5", current_state := INTENT_MENU,
            context := newContext "es", message_count := 0 }) ∨
    (∃ ns, "intent_menu" = stateValue ns ∧
      is_valid_transition
        (ConversationSession.current_state
          { session_id := "m5", current_state := INTENT_MENU,
            context := newContext "es", message_count := 0 }) ns = true) ∨
    "intent_menu" = stateValue ERROR :=
  c5_transition_closure_and_commits.2
    [(sessionKey "m5",
      session_to_dict
        { session_id := "m5", current_state := INTENT_MENU,
          context := newContext "es", message_count := 0 })]
    "m5" "9" "es" (.ok ("x", none, none))
    (session_to_dict
      { session_id := "m5", current_state := INTENT_MENU,
        context := newContext "es", message_count := 0 })
    { session_id := "m5", current_state := INTENT_MENU,
      context := newContext "es", message_count := 0 }
    rfl rfl rfl (by decide) rfl "intent_menu" rfl

/-- The states from which the transition map allows entering `ERROR`. -/
def errorEnterableStates : List ConversationState :=
  [INTENT_MENU, PRODUCT_SEARCH_INIT, VEHICLE_INFO_COLLECTION,
   VEHICLE_IDENTIFICATION, PART_TYPE_SELECTION, PRODUCT_PRESENTATION,
   PRICE_NEGOTIATION, ORDER_CONFIRMATION, ERROR]

/-- C6 (counterexample): `ERROR` cannot be entered from every state — from
`END` the only allowed target is `INTENT_MENU`, so
`is_valid_transition(END, ERROR)` is false. -/
theorem c6_end_to_error_invalid :
    is_valid_transition END ERROR = false ∧
    is_valid_transition TECHNICAL_INFO ERROR = false := by
  decide

/-- C6 (amended): `ERROR` may be entered exactly from the states whose map
entry lists it (all keyed states except `END`; the reserved states without a
map entry allow nothing); from `ERROR` the machine may return exactly to the
states declared in `models.py`; from `END` the only allowed target is
`INTENT_MENU`. -/
theorem c6_error_edges_exact :
    (∀ s : ConversationState,
      is_valid_transition s ERROR = true ↔ s ∈ errorEnterableStates) ∧
    (∀ t : ConversationState,
      is_valid_transition ERROR t = true ↔ t ∈ modelsDeclaredStates) ∧
    (∀ t : ConversationState,
      is_valid_transition END t = true ↔ t = INTENT_MENU) := by
  refine ⟨?_, ?_, ?_⟩
  · intro s; cases s <;> decide
  · intro t; cases t <;> decide
  · intro t; cases t <;> decide

/-- C7 (counterexample): the declared conversation-state enumeration of
`models.py` contains neither `VEHICLE_IDENTIFICATION` nor `OTHER` (it
declares `VEHICLE_INFO_COLLECTION` instead of the former), refuting the
claimed member list. -/
theorem c7_undeclared_members :
    VEHICLE_IDENTIFICATION ∉ modelsDeclaredStates ∧
    OTHER ∉ modelsDeclaredStates ∧
    VEHICLE_INFO_COLLECTION ∈ modelsDeclaredStates := by
  decide

/-- C7 (amended): the enum declared in `models.py` consists exactly of the
thirteen states below (with `VEHICLE_INFO_COLLECTION`, without
`VEHICLE_IDENTIFICATION` and without `OTHER`); yet `VEHICLE_IDENTIFICATION`
— not a member — is referenced both as a key of the transition map and as a
state of the product-search journey. -/
theorem c7_declared_enumeration :
    modelsDeclaredStates =
      [INTENT_MENU, PRODUCT_SEARCH_INIT, VEHICLE_INFO_COLLECTION,
       PART_TYPE_SELECTION, PRODUCT_PRESENTATION, PRICE_NEGOTIATION,
       ORDER_CONFIRMATION, ORDER_STATUS, TECHNICAL_INFO, RETURNS_WARRANTY,
       GENERAL_INFO, ERROR, END] ∧
    VEHICLE_IDENTIFICATION ∉ modelsDeclaredStates ∧
    OTHER ∉ modelsDeclaredStates ∧
    (VALID_TRANSITIONS VEHICLE_IDENTIFICATION).isSome = true ∧
    VEHICLE_IDENTIFICATION ∈ productSearchHandledStates := by
  decide

/-- C8 (counterexample): the parser the Menu handler instantiates
(`utils/parser.py`) returns no intent with confidence 0.0 on the lexicon
examples "pastillas" and "pads" — not the product-search intent with medium
confidence. -/
theorem c8_keyword_returns_no_intent :
    utilsParseIntent "pastillas" =
      { intent := none, confidence := 0, raw_input := "pastillas",
        extracted_number := none } ∧
    utilsParseIntent "pads" =
      { intent := none, confidence := 0, raw_input := "pads",
        extracted_number := none } :=
  ⟨rfl, rfl⟩

/-- C8 (amended): the Menu handler's parser has no keyword fallback — every
input whose extracted integer does not map to 1..6 (including every
digit-free input) yields no intent with confidence 0.0.  A keyword fallback
with medium confidence 0.6 exists only in the legacy
`intents/parser.py` `_detect_text_intent`, whose lexicon contains
"freno"/"brake" but neither "pastillas" nor "pads". -/
theorem c8_no_keyword_fallback :
    (∀ input : String, input ≠ "" →
      (extractFirstNumber (pyStrip input)).all
          (fun n => !decide (1 ≤ n ∧ n ≤ 6)) = true →
      (utilsParseIntent input).intent = none ∧
      (utilsParseIntent input).confidence = 0) ∧
    legacyDetectTextIntent "pastillas" = (none, 0) ∧
    legacyDetectTextIntent "pads" = (none, 0) ∧
    legacyDetectTextIntent "necesito frenos nuevos" =
      (some .PRODUCT_SEARCH, 6/10) ∧
    (legacyTextIntentMapping.map (·.1)).contains "pastillas" = false ∧
    (legacyTextIntentMapping.map (·.1)).contains "pads" = false := by
  refine ⟨?_, rfl, rfl, rfl, by decide, by decide⟩
  intro input h1 h2
  unfold utilsParseIntent
  rw [if_neg h1]
  cases hE : extractFirstNumber (pyStrip input) with
  | none => exact ⟨rfl, rfl⟩
  | some n =>
      have hr : ¬(1 ≤ n ∧ n ≤ 6) := by
        rw [hE] at h2
        simp at h2
        omega
      dsimp only
      rw [if_neg hr]
      exact ⟨rfl, rfl⟩

/-- C8 (witness): the amended theorem applied at the keyword input
"pastillas". -/
theorem c8_no_keyword_fallback_witness :
    (utilsParseIntent "pastillas").intent = none ∧
    (utilsParseIntent "pastillas").confidence = 0 :=
  c8_no_keyword_fallback.1 "pastillas" (by decide) (by decide)

/-- C9: at `INTENT_MENU`, an input whose extracted integer lies outside 1..6
is a parse failure (no intent, nothing raised); the Menu handler answers the
localized invalid-selection message echoing the input; the Manager commits
no state transition and no context change — the store is returned
unchanged. -/
theorem c9_out_of_range_digit_reprompts
    (store : Store) (sid input lang : String)
    (oc : Except String HandlerTriple)
    (rec : StoredSession) (sess : ConversationSession) (n : Nat)
    (t : MenuTemplates)
    (hGet : cacheGet store (sessionKey sid) = some rec)
    (hSess : session_from_dict rec = .ok sess)
    (hMenu : sess.current_state = INTENT_MENU)
    (hLang : ctxLanguage sess.context = lang)
    (hT : menuTemplates lang = some t)
    (hex : extractFirstNumber (pyStrip input) = some n)
    (hrange : ¬(1 ≤ n ∧ n ≤ 6)) :
    (utilsParseIntent input).intent = none ∧
    processMessage store sid input lang oc =
      (.ok (formatUserInput t.invalid_selection input,
            [("state", .vStr "intent_menu"),
             ("journey",
              (dictGet sess.context "current_journey").getD .vNone),
             ("language", .vStr lang),
             ("message_count", .vInt sess.message_count)]),
       store) := by
  have hne : input ≠ "" := by
    intro h
    rw [h] at hex
    cases hex
  have hpm : pyStrip input ≠ "" := by
    intro h
    rw [h] at hex
    cases hex
  have hParse : utilsParseIntent input =
      { intent := none, confidence := 0, raw_input := input,
        extracted_number := some n } := by
    unfold utilsParseIntent
    rw [if_neg hne, hex]
    dsimp only
    rw [if_neg hrange]
  have hGoc : getOrCreateSession store sid lang = .ok (sess, store) := by
    simp [getOrCreateSession, hGet, hSess, Except.map]
  have hcmd : dispatchHandler sess input oc =
      .ok (formatUserInput t.invalid_selection input, none, none) := by
    unfold dispatchHandler
    rw [if_pos hMenu]
    simp only [menuProcessMessage, hLang, hT, hParse]
  refine ⟨by rw [hParse], ?_⟩
  simp only [processMessage, if_neg hpm, hGoc]
  rw [if_neg (by simp [hLang]), hcmd]
  dsimp only
  simp only [afterDispatch]
  rw [hMenu]
  rfl

/-- C9 (witness): the theorem applied at the concrete input "9" on an
`INTENT_MENU` session. -/
theorem c9_out_of_range_digit_reprompts_witness :
    (utilsParseIntent "9").intent = none ∧
    processMessage
        [(sessionKey "m9",
          session_to_dict
            { session_id := "m9", current_state := INTENT_MENU,
              context := newContext "es", message_count := 5 })]
        "m9" "9" "es" (.ok ("x", none, none)) =
      (.ok (formatUserInput
              "No entendí tu selección: \"{user_input}\". Por favor elige una opción del 1 al 6."
              "9",
            [("state", .vStr "intent_menu"),
             ("journey", .vNone),
             ("language", .vStr "es"),
             ("message_count", .vInt 5)]),
       [(sessionKey "m9",
         session_to_dict
           { session_id := "m9", current_state := INTENT_MENU,
             context := newContext "es", message_count := 5 })]) :=
  c9_out_of_range_digit_reprompts
    [(sessionKey "m9",
      session_to_dict
        { session_id := "m9", current_state := INTENT_MENU,
          context := newContext "es", message_count := 5 })]
    "m9" "9" "es" (.ok ("x", none, none))
    (session_to_dict
      { session_id := "m9", current_state := INTENT_MENU,
        context := newContext "es", message_count := 5 })
    { session_id := "m9", current_state := INTENT_MENU,
      context := newContext "es", message_count := 5 }
    9
    { menu := "Hola, soy tu asistente de repuestos. Elige una opción:\n1. Buscar productos\n2. Información técnica\n3. Estado de pedido\n4. Devoluciones y garantía\n5. Información general\n6. Otro"
      invalid_selection := "No entendí tu selección: \"{user_input}\". Por favor elige una opción del 1 al 6."
      product_search_selected := "Perfecto, vamos a buscar el repuesto para tu vehículo."
      not_implemented := "La opción {intent_name} aún no está disponible. Intenta la opción 1." }
    rfl rfl rfl rfl rfl rfl (by decide)

/-- C10: an empty message on an existing session takes the greeting path,
which runs before the language-switch check: the persisted record —
`current_state`, context (including the stored language), `message_count` —
is left entirely unchanged even when the requested language differs from the
stored one, and the returned menu text is rendered in the requested
language. -/
theorem c10_empty_message_frame
    (store : Store) (sid lang : String) (oc : Except String HandlerTriple)
    (rec : StoredSession) (sess : ConversationSession) (t : MenuTemplates)
    (hGet : cacheGet store (sessionKey sid) = some rec)
    (hSess : session_from_dict rec = .ok sess)
    (hT : menuTemplates lang = some t) :
    processMessage store sid "" lang oc =
      (.ok (t.menu,
            [("state", .vStr "intent_menu"),
             ("initial_greeting", .vBool true),
             ("language", .vStr lang)]), store) := by
  have hGoc : getOrCreateSession store sid lang = .ok (sess, store) := by
    simp [getOrCreateSession, hGet, hSess, Except.map]
  simp only [processMessage, if_pos (show pyStrip "" = "" from rfl), hGoc,
    getEntryMessage, hT]

/-- C10 (witness): the theorem applied to a session stored with language
"es" and the greeting requested in "en": the store is untouched and the
menu comes back in English. -/
theorem c10_empty_message_frame_witness :
    processMessage
        [(sessionKey "m10",
          session_to_dict
            { session_id := "m10", current_state := PART_TYPE_SELECTION,
              context := newContext "es", message_count := 7 })]
        "m10" "" "en" (.ok ("x", none, none)) =
      (.ok ("Hi, I am your auto-parts assistant. Pick an option:\n1. Search products\n2. Technical information\n3. Order status\n4. Returns and warranty\n5. General information\n6. Other",
            [("state", .vStr "intent_menu"),
             ("initial_greeting", .vBool true),
             ("language", .vStr "en")]),
       [(sessionKey "m10",
         session_to_dict
           { session_id := "m10", current_state := PART_TYPE_SELECTION,
             context := newContext "es", message_count := 7 })]) :=
  c10_empty_message_frame
    [(sessionKey "m10",
      session_to_dict
        { session_id := "m10", current_state := PART_TYPE_SELECTION,
          context := newContext "es", message_count := 7 })]
    "m10" "en" (.ok ("x", none, none))
    (session_to_dict
      { session_id := "m10", current_state := PART_TYPE_SELECTION,
        context := newContext "es", message_count := 7 })
    { session_id := "m10", current_state := PART_TYPE_SELECTION,
      context := newContext "es", message_count := 7 }
    { menu := "Hi, I am your auto-parts assistant. Pick an option:\n1. Search products\n2. Technical information\n3. Order status\n4. Returns and warranty\n5. General information\n6. Other"
      invalid_selection := "I did not understand your selection: \"{user_input}\". Please pick an option from 1 to 6."
      product_search_selected := "Great, let us find the part for your vehicle."
      not_implemented := "The option {intent_name} is not yet available. Try option 1." }
    rfl rfl rfl

/-- C1: at `PART_TYPE_SELECTION` without vehicle context,
`PartSelectionState.process` does return the localized missing-vehicle-info
message proposing `VEHICLE_IDENTIFICATION` — but the committed next state is
not `VEHICLE_IDENTIFICATION`: the product-search journey never registers
`PART_TYPE_SELECTION` (the registration is commented out), so the Manager's
fallback proposes `INTENT_MENU`, which the transition map rejects for
`PART_TYPE_SELECTION`, and the run commits `ERROR` and returns the generic
error message; moreover `PART_TYPE_SELECTION → VEHICLE_IDENTIFICATION` is
itself off the transition map. -/
theorem c1_part_type_selection_disconnected :
    (∀ collab : String → Except String HandlerTriple,
      partSelectionProcess collab
        { session_id := "c1", current_state := PART_TYPE_SELECTION,
          context := newContext "es", message_count := 3 } "hola" =
        .ok (psTemplate "es" "missing_vehicle_info",
             some VEHICLE_IDENTIFICATION, none)) ∧
    productSearchHandlesState PART_TYPE_SELECTION = false ∧
    is_valid_transition PART_TYPE_SELECTION VEHICLE_IDENTIFICATION = false ∧
    (processMessage
        [(sessionKey "c1",
          session_to_dict
            { session_id := "c1", current_state := PART_TYPE_SELECTION,
              context := newContext "es", message_count := 3 })]
        "c1" "hola" "es" (.ok ("x", none, none))).1 =
      .ok (genericErrorMessage "es",
           [("state", .vStr "error"), ("journey", .vNone),
            ("language", .vStr "es"), ("message_count", .vInt 3)]) ∧
    storedStateValue
      ((processMessage
          [(sessionKey "c1",
            session_to_dict
              { session_id := "c1", current_state := PART_TYPE_SELECTION,
                context := newContext "es", message_count := 3 })]
          "c1" "hola" "es" (.ok ("x", none, none))).2) "c1" =
      some "error" :=
  ⟨fun _ => rfl, rfl, rfl, rfl, rfl⟩
